import Mathlib

/-!
Shallow embedding of the jellyfish drift prediction core
(`src/services/driftService.ts`) and verification of the specified
properties.  JavaScript numbers are modelled as real numbers, epoch
millisecond timestamps as integers.  The two ambient effects the service
reads — the system clock used by `groupWindDataByDay` and the global
`Math.random()` drawn by `calculateDailyDrift` — are passed explicitly
through `AmbientEnv`.
-/

noncomputable section

/-- Wind sample as produced by the weather service: speed (m/s), direction
(degrees), timestamp (epoch milliseconds, modelled as an integer). -/
structure WindData where
  speed : ℝ
  direction : ℝ
  timestamp : ℤ

/-- The observation the caller submits: coordinates in degrees. -/
structure JellyfishObservation where
  latitude : ℝ
  longitude : ℝ
  jellyfishCount : ℕ
  timestamp : ℤ

/-- One emitted prediction record (`DriftPrediction` in the source);
`distance` is the distance from the original point in km. -/
structure DriftPrediction where
  day : ℕ
  latitude : ℝ
  longitude : ℝ
  confidence : ℝ
  windSpeed : ℝ
  windDirection : ℝ
  distance : ℝ

/-- Averaged wind over one daily bucket. -/
structure AveragedWind where
  speed : ℝ
  direction : ℝ

/-- Point of the assembled drift path. -/
structure PathPoint where
  longitude : ℝ
  latitude : ℝ
  day : ℕ

/-- Ambient state the service reads during a run: `groupWindDataByDay`
reads the system clock (`new Date()`) to compute the start of tomorrow,
and `calculateDailyDrift` draws from the global `Math.random()`.  The
embedding passes both explicitly; the random stream is indexed by the
simulated day on which the draw is made (the code makes exactly one draw
per non-skipped day, in day order). -/
structure AmbientEnv where
  tomorrowStart : ℤ
  rng : ℕ → ℝ

/-- Constant `JELLYFISH_DRIFT_FACTOR` from the source: 3% of wind speed. -/
def JELLYFISH_DRIFT_FACTOR : ℝ := 0.03

/-- Constant `OCEAN_CURRENT_FACTOR` from the source: km/day base drift. -/
def OCEAN_CURRENT_FACTOR : ℝ := 0.5

/-- Constant `DAILY_UNCERTAINTY` from the source: 2% uncertainty per day. -/
def DAILY_UNCERTAINTY : ℝ := 0.02

/-- Constant `EARTH_RADIUS` from the source, in kilometers. -/
def EARTH_RADIUS : ℝ := 6371

/-- JavaScript `Math.atan2 y x`, embedded as the argument of the complex
number with real part `x` and imaginary part `y`. -/
def atan2 (y x : ℝ) : ℝ := Complex.arg ⟨x, y⟩

/-- Embeds `DriftService.groupWindDataByDay`: groups wind data into up to five
daily buckets starting at the start of tomorrow (in the code an implicit
read of the system clock, here the explicit `tomorrowStart`); a day with
no samples is omitted, so the returned sequence is compacted. -/
def groupWindDataByDay (tomorrowStart : ℤ) (windData : List WindData) :
    List (List WindData) :=
  let msPerDay : ℤ := 24 * 60 * 60 * 1000
  (List.range 5).filterMap fun day =>
    let dayStart := tomorrowStart + (day : ℤ) * msPerDay
    let dayEnd := dayStart + msPerDay
    let dayData := windData.filter fun w =>
      decide (dayStart ≤ w.timestamp) && decide (w.timestamp < dayEnd)
    if 0 < dayData.length then some dayData else none

/-- Embeds `DriftService.calculateAverageWind`: circular (vector) averaging of a
bucket of wind samples; the empty bucket averages to speed 0, direction 0. -/
def calculateAverageWind (windData : List WindData) : AveragedWind :=
  if windData.length = 0 then ⟨0, 0⟩
  else
    let totalSpeedX :=
      (windData.map fun w => w.speed * Real.sin (w.direction * Real.pi / 180)).sum
    let totalSpeedY :=
      (windData.map fun w => w.speed * Real.cos (w.direction * Real.pi / 180)).sum
    let avgSpeedX := totalSpeedX / windData.length
    let avgSpeedY := totalSpeedY / windData.length
    let avgSpeed := Real.sqrt (avgSpeedX * avgSpeedX + avgSpeedY * avgSpeedY)
    let avgDirection := atan2 avgSpeedX avgSpeedY * (180 / Real.pi)
    ⟨avgSpeed, if avgDirection < 0 then avgDirection + 360 else avgDirection⟩

/-- Embeds `DriftService.calculateDailyDrift`: wind drift over 24 hours plus the
constant current component plus an uncertainty term; the call the code
makes to the ambient `Math.random()` is the explicit `rand` argument. -/
def calculateDailyDrift (windSpeed : ℝ) (day : ℕ) (rand : ℝ) : ℝ :=
  windSpeed * JELLYFISH_DRIFT_FACTOR * 24 + OCEAN_CURRENT_FACTOR +
    rand * (day : ℝ) * 0.1

/-- The exact expression `DriftService.applyDrift` passes to `Math.asin`
when computing the new latitude (the code passes it unclamped). -/
def asinArg (lat distance direction : ℝ) : ℝ :=
  Real.sin (lat * Real.pi / 180) * Real.cos (distance / EARTH_RADIUS) +
    Real.cos (lat * Real.pi / 180) * Real.sin (distance / EARTH_RADIUS) *
      Real.cos (direction * Real.pi / 180)

/-- Embeds `DriftService.applyDrift`: spherical destination-point projection.  The
source passes `asinArg` to `Math.asin` without clamping; `Real.arcsin`
stands in for `Math.asin` (note that `Real.arcsin` is total whereas
`Math.asin` yields NaN outside `[-1,1]`). -/
def applyDrift (lat lon distance direction : ℝ) : ℝ × ℝ :=
  let bearing := direction * Real.pi / 180
  let distanceRad := distance / EARTH_RADIUS
  let latRad := lat * Real.pi / 180
  let lonRad := lon * Real.pi / 180
  let newLatRad := Real.arcsin (asinArg lat distance direction)
  let newLonRad := lonRad +
    atan2 (Real.sin bearing * Real.sin distanceRad * Real.cos latRad)
      (Real.cos distanceRad - Real.sin latRad * Real.sin newLatRad)
  (newLatRad * 180 / Real.pi, newLonRad * 180 / Real.pi)

/-- Modelled from the spec: §4.4/§7 require GreatCircleProjector to clamp
the `asin` argument into `[-1,1]` before the inverse trig call (the source
code does not contain this clamp). -/
def applyDriftClamped (lat lon distance direction : ℝ) : ℝ × ℝ :=
  let bearing := direction * Real.pi / 180
  let distanceRad := distance / EARTH_RADIUS
  let latRad := lat * Real.pi / 180
  let lonRad := lon * Real.pi / 180
  let newLatRad := Real.arcsin (max (-1) (min 1 (asinArg lat distance direction)))
  let newLonRad := lonRad +
    atan2 (Real.sin bearing * Real.sin distanceRad * Real.cos latRad)
      (Real.cos distanceRad - Real.sin latRad * Real.sin newLatRad)
  (newLatRad * 180 / Real.pi, newLonRad * 180 / Real.pi)

/-- The `a` intermediate of `DriftService.calculateDistance` (haversine). -/
def haversineA (lat1 lon1 lat2 lon2 : ℝ) : ℝ :=
  let dLat := (lat2 - lat1) * Real.pi / 180
  let dLon := (lon2 - lon1) * Real.pi / 180
  Real.sin (dLat / 2) * Real.sin (dLat / 2) +
    Real.cos (lat1 * Real.pi / 180) * Real.cos (lat2 * Real.pi / 180) *
      Real.sin (dLon / 2) * Real.sin (dLon / 2)

/-- Embeds `DriftService.calculateDistance`: haversine great-circle distance. -/
def calculateDistance (lat1 lon1 lat2 lon2 : ℝ) : ℝ :=
  let a := haversineA lat1 lon1 lat2 lon2
  let c := 2 * atan2 (Real.sqrt a) (Real.sqrt (1 - a))
  EARTH_RADIUS * c

/-- Bucket lookup in the loop body of `predictDrift`:
`dailyWindData[day - 1] || dailyWindData[dailyWindData.length - 1]`.
An in-range element is always a (truthy) array, so the JS `||` falls
through exactly when `day - 1` is out of range; the fallback is the last
bucket, `undefined` (`none`) when the compacted sequence is empty. -/
def resolveBucket (grouped : List (List WindData)) (day : ℕ) :
    Option (List WindData) :=
  (grouped[day - 1]?).orElse fun _ => grouped.getLast?

/-- New running position computed for one emitted day. -/
def nextPos (rng : ℕ → ℝ) (pos : ℝ × ℝ) (day : ℕ) (bucket : List WindData) :
    ℝ × ℝ :=
  let avgWind := calculateAverageWind bucket
  applyDrift pos.1 pos.2 (calculateDailyDrift avgWind.speed day (rng day))
    avgWind.direction

/-- The record `predictDrift` pushes for one emitted day; `origin` is the
coordinate pair of the observation. -/
def emittedRecord (origin : ℝ × ℝ) (rng : ℕ → ℝ) (pos : ℝ × ℝ) (day : ℕ)
    (bucket : List WindData) : DriftPrediction :=
  let avgWind := calculateAverageWind bucket
  let p := nextPos rng pos day bucket
  { day := day
    latitude := p.1
    longitude := p.2
    confidence := max 0.1 (1 - (day : ℝ) * DAILY_UNCERTAINTY)
    windSpeed := avgWind.speed
    windDirection := avgWind.direction
    distance := calculateDistance origin.1 origin.2 p.1 p.2 }

/-- The day loop of `DriftService.predictDrift`, carrying the running
position; a day whose bucket does not resolve is skipped (`continue`). -/
def runDays (grouped : List (List WindData)) (rng : ℕ → ℝ) (origin : ℝ × ℝ) :
    ℝ × ℝ → List ℕ → List DriftPrediction
  | _, [] => []
  | pos, day :: rest =>
    match resolveBucket grouped day with
    | none => runDays grouped rng origin pos rest
    | some bucket =>
      emittedRecord origin rng pos day bucket ::
        runDays grouped rng origin (nextPos rng pos day bucket) rest

/-- Embeds `DriftService.predictDrift`: runs the day loop for `day = 1..days`
starting from the coordinates of the observation. -/
def predictDrift (env : AmbientEnv) (observation : JellyfishObservation)
    (windData : List WindData) (days : ℕ := 5) : List DriftPrediction :=
  runDays (groupWindDataByDay env.tomorrowStart windData) env.rng
    (observation.latitude, observation.longitude)
    (observation.latitude, observation.longitude)
    (List.range' 1 days)

/-- Embeds `DriftService.generateDriftPath`: prepends the origin (day 0) to the
positions of the predictions. -/
def generateDriftPath (predictions : List DriftPrediction)
    (observation : JellyfishObservation) : List PathPoint :=
  ⟨observation.longitude, observation.latitude, 0⟩ ::
    predictions.map fun prediction =>
      ⟨prediction.longitude, prediction.latitude, prediction.day⟩

/-- Spec-side confidence law, `max(0.1, 1 − 0.02·day)`. -/
def confidenceOfDay (day : ℕ) : ℝ := max 0.1 (1 - (day : ℝ) * DAILY_UNCERTAINTY)

/-- Spec-side mean x-component of a bucket (§4.1 Reduction). -/
def xbar (windData : List WindData) : ℝ :=
  (windData.map fun w => w.speed * Real.sin (w.direction * Real.pi / 180)).sum /
    windData.length

/-- Spec-side mean y-component of a bucket (§4.1 Reduction). -/
def ybar (windData : List WindData) : ℝ :=
  (windData.map fun w => w.speed * Real.cos (w.direction * Real.pi / 180)).sum /
    windData.length

/-- Spec-side normalization of a direction in degrees into `[0,360)` by
adding 360 if negative. -/
def normalizeDeg (d : ℝ) : ℝ := if d < 0 then d + 360 else d

/-- Concrete environment: tomorrow starts at epoch 0, every random draw is 0. -/
def env0 : AmbientEnv := ⟨0, fun _ => 0⟩

/-- Concrete environment differing from `env0` only in the clock: tomorrow
starts far later, so the same samples fall outside every bucket window. -/
def envLate : AmbientEnv := ⟨10 ^ 12, fun _ => 0⟩

/-- Concrete observation at the origin. -/
def obs0 : JellyfishObservation := ⟨0, 0, 10, 0⟩

/-- One wind sample, falling in the day-1 bucket under `env0`. -/
def wd1 : List WindData := [⟨10, 90, 0⟩]

/-- Wind samples covering only days 1–3 under `env0` (one sample in each
of the first three daily buckets, none in days 4–5). -/
def wd3 : List WindData :=
  [⟨10, 90, 0⟩, ⟨10, 90, 86400000⟩, ⟨10, 90, 172800000⟩]

end

lemma runDays_nil (g : List (List WindData)) (r : ℕ → ℝ) (o pos : ℝ × ℝ) :
    runDays g r o pos [] = [] := rfl

lemma runDays_cons_none {g : List (List WindData)} {d : ℕ} (r : ℕ → ℝ)
    (o pos : ℝ × ℝ) (rest : List ℕ) (h : resolveBucket g d = none) :
    runDays g r o pos (d :: rest) = runDays g r o pos rest := by
  rw [runDays, h]

lemma runDays_cons_some {g : List (List WindData)} {d : ℕ} {b : List WindData}
    (r : ℕ → ℝ) (o pos : ℝ × ℝ) (rest : List ℕ) (h : resolveBucket g d = some b) :
    runDays g r o pos (d :: rest) =
      emittedRecord o r pos d b ::
        runDays g r o (nextPos r pos d b) rest := by
  rw [runDays, h]

lemma resolveBucket_nil (d : ℕ) : resolveBucket [] d = none := rfl

lemma resolveBucket_of_ne_nil {g : List (List WindData)} (h : g ≠ []) (d : ℕ) :
    ∃ b, resolveBucket g d = some b := by
  unfold resolveBucket
  cases hg : g[d - 1]? with
  | some b => exact ⟨b, rfl⟩
  | none =>
    obtain ⟨b, hb⟩ := Option.isSome_iff_exists.mp (List.getLast?_isSome.mpr h)
    exact ⟨b, by simp [Option.orElse, hb]⟩

lemma runDays_of_nil (r : ℕ → ℝ) (o : ℝ × ℝ) :
    ∀ (ds : List ℕ) (pos : ℝ × ℝ), runDays [] r o pos ds = []
  | [], _ => rfl
  | d :: rest, pos => by
    rw [runDays_cons_none r o pos rest (resolveBucket_nil d)]
    exact runDays_of_nil r o rest pos

lemma runDays_length_of_ne_nil {g : List (List WindData)} (h : g ≠ [])
    (r : ℕ → ℝ) (o : ℝ × ℝ) :
    ∀ (ds : List ℕ) (pos : ℝ × ℝ), (runDays g r o pos ds).length = ds.length
  | [], _ => rfl
  | d :: rest, pos => by
    obtain ⟨b, hb⟩ := resolveBucket_of_ne_nil h d
    rw [runDays_cons_some r o pos rest hb]
    simp [runDays_length_of_ne_nil h r o rest]

lemma runDays_map_day_sublist (g : List (List WindData)) (r : ℕ → ℝ) (o : ℝ × ℝ) :
    ∀ (ds : List ℕ) (pos : ℝ × ℝ),
      List.Sublist ((runDays g r o pos ds).map fun p => p.day) ds
  | [], _ => by simp [runDays_nil]
  | d :: rest, pos => by
    cases hb : resolveBucket g d with
    | none =>
      rw [runDays_cons_none r o pos rest hb]
      exact (runDays_map_day_sublist g r o rest pos).trans (List.sublist_cons_self d rest)
    | some b =>
      rw [runDays_cons_some r o pos rest hb]
      exact List.Sublist.cons₂ d (runDays_map_day_sublist g r o rest (nextPos r pos d b))

lemma atan2_nonneg {y : ℝ} (x : ℝ) (hy : 0 ≤ y) : 0 ≤ atan2 y x :=
  Complex.arg_nonneg_iff.mpr hy

lemma mk_zero_zero : (⟨0, 0⟩ : ℂ) = 0 := by
  apply Complex.ext <;> simp

lemma mk_one_zero : (⟨1, 0⟩ : ℂ) = 1 := by
  apply Complex.ext <;> simp

lemma atan2_zero_one : atan2 0 1 = 0 := by
  rw [atan2, mk_one_zero, Complex.arg_one]

lemma atan2_zero_zero : atan2 0 0 = 0 := by
  rw [atan2, mk_zero_zero, Complex.arg_zero]

lemma haversineA_symm (lat1 lon1 lat2 lon2 : ℝ) :
    haversineA lat2 lon2 lat1 lon1 = haversineA lat1 lon1 lat2 lon2 := by
  simp only [haversineA]
  have h1 : (lat1 - lat2) * Real.pi / 180 / 2 = -((lat2 - lat1) * Real.pi / 180 / 2) := by
    ring
  have h2 : (lon1 - lon2) * Real.pi / 180 / 2 = -((lon2 - lon1) * Real.pi / 180 / 2) := by
    ring
  rw [h1, h2, Real.sin_neg, Real.sin_neg]
  ring

lemma haversineA_self (lat lon : ℝ) : haversineA lat lon lat lon = 0 := by
  simp [haversineA]

/-- C9: `calculateDistance` is nonnegative, symmetric in its two points, and
zero on two exactly identical points; it is the haversine great-circle
distance of the source with Earth radius `EARTH_RADIUS = 6371`. -/
theorem calculateDistance_nonneg_symm_self :
    ∀ lat1 lon1 lat2 lon2 : ℝ,
      0 ≤ calculateDistance lat1 lon1 lat2 lon2
      ∧ calculateDistance lat1 lon1 lat2 lon2 = calculateDistance lat2 lon2 lat1 lon1
      ∧ calculateDistance lat1 lon1 lat1 lon1 = 0 := by
  intro lat1 lon1 lat2 lon2
  refine ⟨?_, ?_, ?_⟩
  · have h := atan2_nonneg (Real.sqrt (1 - haversineA lat1 lon1 lat2 lon2))
      (Real.sqrt_nonneg (haversineA lat1 lon1 lat2 lon2))
    simp only [calculateDistance]
    have hR : (0 : ℝ) ≤ EARTH_RADIUS := by norm_num [EARTH_RADIUS]
    positivity
  · simp only [calculateDistance]
    rw [haversineA_symm]
  · simp only [calculateDistance]
    rw [haversineA_self]
    rw [Real.sqrt_zero, sub_zero, Real.sqrt_one, atan2_zero_one]
    ring

/-- C10: `generateDriftPath` returns a sequence of length `records + 1`
whose element 0 is the position of the observation with day 0 and whose
element `k+1` mirrors the longitude, latitude and day of record `k`; it is
total (in
particular it succeeds on the empty record sequence). -/
theorem generateDriftPath_spec :
    ∀ (predictions : List DriftPrediction) (observation : JellyfishObservation),
      (generateDriftPath predictions observation).length = predictions.length + 1
      ∧ (generateDriftPath predictions observation)[0]? =
          some ⟨observation.longitude, observation.latitude, 0⟩
      ∧ ∀ k : ℕ, (generateDriftPath predictions observation)[k + 1]? =
          predictions[k]?.map fun p => ⟨p.longitude, p.latitude, p.day⟩ := by
  intro predictions observation
  refine ⟨by simp [generateDriftPath], by simp [generateDriftPath], fun k => ?_⟩
  simp [generateDriftPath]

/-- C7: the daily displacement equals
`windSpeed * 0.03 * 24 + 0.5 + rand * day * 0.1`, and with a zero draw and
wind speed 10 it is exactly 7.7 km. -/
theorem calculateDailyDrift_formula :
    ∀ (w : ℝ) (d : ℕ) (r : ℝ), 0 ≤ w → 1 ≤ d → 0 ≤ r → r < 1 →
      calculateDailyDrift w d r = w * 0.03 * 24 + 0.5 + r * (d : ℝ) * 0.1
      ∧ calculateDailyDrift 10 d 0 = 7.7 := by
  intro w d r _ _ _ _
  constructor
  · rfl
  · simp only [calculateDailyDrift, JELLYFISH_DRIFT_FACTOR, OCEAN_CURRENT_FACTOR]
    norm_num

theorem calculateDailyDrift_formula_w : calculateDailyDrift 10 1 0 = 7.7 :=
  (calculateDailyDrift_formula 10 1 0 (by norm_num) (by norm_num) (by norm_num)
    (by norm_num)).2

/-- C2 (code bug evidence): two runs with identical observation, wind data
and day count, the same (all-zero) random draw stream, but a different
system clock give different outputs, because `groupWindDataByDay` reads the
wall clock and `calculateDailyDrift` draws from the ambient global
generator rather than from an injectable seeded source. -/
theorem predictDrift_reads_ambient_state :
    predictDrift env0 obs0 wd1 1 ≠ predictDrift envLate obs0 wd1 1 := by
  intro h
  have h1 : (predictDrift env0 obs0 wd1 1).length = 1 := rfl
  have h2 : (predictDrift envLate obs0 wd1 1).length = 0 := rfl
  rw [h, h2] at h1
  omega

/-- C3: the output of `predictDrift` has length 0 when the compacted bucket
sequence is empty (every day is skipped) and length exactly `days`
otherwise (the last-bucket fallback resolves a bucket for every day), so a
non-empty output shorter than `days` never occurs. -/
theorem predictDrift_all_or_nothing :
    ∀ (env : AmbientEnv) (obs : JellyfishObservation) (wd : List WindData)
      (days : ℕ),
      (groupWindDataByDay env.tomorrowStart wd = [] →
        predictDrift env obs wd days = [])
      ∧ (groupWindDataByDay env.tomorrowStart wd ≠ [] →
        (predictDrift env obs wd days).length = days) := by
  intro env obs wd days
  constructor
  · intro h
    unfold predictDrift
    rw [h]
    exact runDays_of_nil env.rng _ _ _
  · intro h
    unfold predictDrift
    rw [runDays_length_of_ne_nil h env.rng _ _ _]
    simp

theorem predictDrift_all_or_nothing_w :
    predictDrift env0 obs0 [] 5 = [] ∧ (predictDrift env0 obs0 wd1 5).length = 5 := by
  constructor
  · exact (predictDrift_all_or_nothing env0 obs0 [] 5).1 rfl
  · refine (predictDrift_all_or_nothing env0 obs0 wd1 5).2 ?_
    have h1 : (groupWindDataByDay env0.tomorrowStart wd1).length = 1 := rfl
    intro h
    rw [h] at h1
    simp at h1

/-- C1 counterexample: `wd3` has wind samples covering only days 1–3 of the
five daily bucket windows, yet a 5-day request emits 5 records (the
last-bucket fallback resolves the day-3 bucket for days 4 and 5), so the
output does not have at most 3 records. -/
theorem predictDrift_gap_counterexample :
    ¬ (predictDrift env0 obs0 wd3 5).length ≤ 3 := by decide

/-- C1 as amended: a day for which no bucket resolves is skipped without
emitting a record or advancing the running position; emitted day values are
strictly increasing with no duplicates; but wind samples covering only days
1–3 of a 5-day request yield exactly 5 records (not at most 3), the
fallback reusing the day-3 bucket for days 4 and 5. -/
theorem predictDrift_gap_handling :
    (∀ (g : List (List WindData)) (r : ℕ → ℝ) (o pos : ℝ × ℝ) (d : ℕ)
        (rest : List ℕ), resolveBucket g d = none →
        runDays g r o pos (d :: rest) = runDays g r o pos rest)
    ∧ (∀ (env : AmbientEnv) (obs : JellyfishObservation) (wd : List WindData)
        (days : ℕ),
        ((predictDrift env obs wd days).map fun p => p.day).Pairwise (· < ·))
    ∧ (predictDrift env0 obs0 wd3 5).length = 5 := by
  refine ⟨?_, ?_, rfl⟩
  · intro g r o pos d rest h
    exact runDays_cons_none r o pos rest h
  · intro env obs wd days
    exact (List.pairwise_lt_range' 1 days).sublist
      (runDays_map_day_sublist _ env.rng _ _ _)

theorem predictDrift_gap_handling_w :
    runDays [] (fun _ => 0) ((0 : ℝ), (0 : ℝ)) (0, 0) [1] =
      runDays [] (fun _ => 0) (0, 0) (0, 0) [] :=
  predictDrift_gap_handling.1 [] (fun _ => 0) (0, 0) (0, 0) 1 [] rfl

lemma runDays_mem_confidence (g : List (List WindData)) (r : ℕ → ℝ) (o : ℝ × ℝ) :
    ∀ (ds : List ℕ) (pos : ℝ × ℝ) (p : DriftPrediction),
      p ∈ runDays g r o pos ds → p.day ∈ ds ∧ p.confidence = confidenceOfDay p.day
  | [], _, p => by simp [runDays_nil]
  | d :: rest, pos, p => by
    cases hb : resolveBucket g d with
    | none =>
      rw [runDays_cons_none r o pos rest hb]
      intro hp
      obtain ⟨h1, h2⟩ := runDays_mem_confidence g r o rest pos p hp
      exact ⟨List.mem_cons_of_mem d h1, h2⟩
    | some b =>
      rw [runDays_cons_some r o pos rest hb]
      intro hp
      rcases List.mem_cons.mp hp with hp | hp
      · subst hp
        exact ⟨List.mem_cons_self d rest, rfl⟩
      · obtain ⟨h1, h2⟩ :=
          runDays_mem_confidence g r o rest (nextPos r pos d b) p hp
        exact ⟨List.mem_cons_of_mem d h1, h2⟩

/-- C5: the confidence of every emitted record equals `max (0.1, 1 − 0.02·day)`
(a function of its day alone, with day ≥ 1); that function is monotonically
non-increasing in the day, floored at 0.1, and exactly 0.1 for every
day ≥ 45. -/
theorem predictDrift_confidence_law :
    (∀ (env : AmbientEnv) (obs : JellyfishObservation) (wd : List WindData)
        (days : ℕ) (p : DriftPrediction), p ∈ predictDrift env obs wd days →
        p.confidence = confidenceOfDay p.day ∧ 1 ≤ p.day)
    ∧ (∀ d e : ℕ, d ≤ e → confidenceOfDay e ≤ confidenceOfDay d)
    ∧ (∀ d : ℕ, 0.1 ≤ confidenceOfDay d)
    ∧ (∀ d : ℕ, 45 ≤ d → confidenceOfDay d = 0.1) := by
  refine ⟨?_, ?_, fun d => le_max_left _ _, ?_⟩
  · intro env obs wd days p hp
    obtain ⟨h1, h2⟩ := runDays_mem_confidence _ env.rng _ _ _ p hp
    refine ⟨h2, ?_⟩
    exact (List.mem_range'_1.mp h1).1
  · intro d e h
    unfold confidenceOfDay
    refine max_le_max le_rfl ?_
    have hc : (d : ℝ) ≤ (e : ℝ) := Nat.cast_le.mpr h
    have hu : (0 : ℝ) ≤ DAILY_UNCERTAINTY := by norm_num [DAILY_UNCERTAINTY]
    nlinarith
  · intro d h
    unfold confidenceOfDay
    refine max_eq_left ?_
    have hc : (45 : ℝ) ≤ (d : ℝ) := by exact_mod_cast h
    norm_num [DAILY_UNCERTAINTY]
    nlinarith

theorem predictDrift_confidence_law_w :
    confidenceOfDay 45 = 0.1 ∧ 0.1 ≤ confidenceOfDay 3
      ∧ confidenceOfDay 5 ≤ confidenceOfDay 2
      ∧ ∃ p, p ∈ predictDrift env0 obs0 wd1 1
          ∧ p.confidence = confidenceOfDay p.day ∧ 1 ≤ p.day := by
  refine ⟨predictDrift_confidence_law.2.2.2 45 (by norm_num),
    predictDrift_confidence_law.2.2.1 3,
    predictDrift_confidence_law.2.1 2 5 (by norm_num), ?_⟩
  have h1 : (predictDrift env0 obs0 wd1 1).length = 1 := rfl
  obtain ⟨p, hp⟩ := List.exists_mem_of_ne_nil (predictDrift env0 obs0 wd1 1)
    (by intro h; rw [h] at h1; simp at h1)
  exact ⟨p, hp, predictDrift_confidence_law.1 env0 obs0 wd1 1 p hp⟩

lemma asinArg_sq_le_one (lat distance direction : ℝ) :
    asinArg lat distance direction ^ 2 ≤ 1 := by
  have hs := Real.sin_sq_add_cos_sq (lat * Real.pi / 180)
  have hd := Real.sin_sq_add_cos_sq (distance / EARTH_RADIUS)
  have hb : Real.cos (direction * Real.pi / 180) ^ 2 ≤ 1 := Real.cos_sq_le_one _
  have h5 : (Real.sin (lat * Real.pi / 180) ^ 2 + Real.cos (lat * Real.pi / 180) ^ 2) *
      (Real.cos (distance / EARTH_RADIUS) ^ 2 +
        Real.sin (distance / EARTH_RADIUS) ^ 2 *
          Real.cos (direction * Real.pi / 180) ^ 2) =
      Real.cos (distance / EARTH_RADIUS) ^ 2 +
        Real.sin (distance / EARTH_RADIUS) ^ 2 *
          Real.cos (direction * Real.pi / 180) ^ 2 := by
    rw [hs, one_mul]
  unfold asinArg
  nlinarith [sq_nonneg (Real.sin (lat * Real.pi / 180) *
      (Real.sin (distance / EARTH_RADIUS) * Real.cos (direction * Real.pi / 180)) -
      Real.cos (lat * Real.pi / 180) * Real.cos (distance / EARTH_RADIUS)),
    mul_nonneg (sq_nonneg (Real.sin (distance / EARTH_RADIUS)))
      (sub_nonneg.mpr hb), h5, hd]

/-- C4 (code bug evidence): over the exact real semantics the argument the
code passes unclamped to `asin` always lies in `[-1,1]`, so the clamp the
spec requires is inert there and `applyDrift` coincides with the clamped
projector; the missing clamp can only diverge under floating-point
rounding, where the sum can exceed 1 and `Math.asin` yields NaN. -/
theorem applyDrift_clamp_inert :
    ∀ lat lon distance direction : ℝ,
      -1 ≤ asinArg lat distance direction
      ∧ asinArg lat distance direction ≤ 1
      ∧ applyDrift lat lon distance direction =
          applyDriftClamped lat lon distance direction := by
  intro lat lon distance direction
  obtain ⟨h1, h2⟩ := abs_le.mp
    (by simpa using asinArg_sq_le_one lat distance direction)
  refine ⟨h1, h2, ?_⟩
  simp only [applyDrift, applyDriftClamped]
  rw [min_eq_right h2, max_eq_right h1]

lemma runDays_chain (g : List (List WindData)) (r : ℕ → ℝ) (o : ℝ × ℝ) :
    ∀ (ds : List ℕ) (pos : ℝ × ℝ) (k : ℕ) (p : DriftPrediction),
      (runDays g r o pos ds)[k]? = some p →
        p.distance = calculateDistance o.1 o.2 p.latitude p.longitude
        ∧ (k = 0 → (p.latitude, p.longitude) =
            applyDrift pos.1 pos.2
              (calculateDailyDrift p.windSpeed p.day (r p.day)) p.windDirection)
        ∧ (∀ q, (runDays g r o pos ds)[k - 1]? = some q → k ≠ 0 →
            (p.latitude, p.longitude) =
              applyDrift q.latitude q.longitude
                (calculateDailyDrift p.windSpeed p.day (r p.day)) p.windDirection)
  | [], pos, k, p => by
    rw [runDays_nil]
    simp
  | d :: rest, pos, k, p => by
    cases hb : resolveBucket g d with
    | none =>
      rw [runDays_cons_none r o pos rest hb]
      exact runDays_chain g r o rest pos k p
    | some b =>
      rw [runDays_cons_some r o pos rest hb]
      match k with
      | 0 =>
        intro h
        rw [List.getElem?_cons_zero] at h
        obtain rfl : emittedRecord o r pos d b = p := by
          exact Option.some.inj h
        refine ⟨rfl, fun _ => rfl, fun q _ h0 => absurd rfl h0⟩
      | n + 1 =>
        intro h
        rw [List.getElem?_cons_succ] at h
        have ih := runDays_chain g r o rest (nextPos r pos d b) n p h
        refine ⟨ih.1, fun h0 => absurd h0 n.succ_ne_zero, ?_⟩
        intro q hq _
        rw [Nat.add_sub_cancel] at hq
        match n, hq with
        | 0, hq =>
          rw [List.getElem?_cons_zero] at hq
          obtain rfl : emittedRecord o r pos d b = q := Option.some.inj hq
          exact ih.2.1 rfl
        | m + 1, hq =>
          rw [List.getElem?_cons_succ] at hq
          refine ih.2.2 q ?_ m.succ_ne_zero
          rw [Nat.add_sub_cancel]
          exact hq

/-- C8: the position of each emitted record is obtained by projecting the
position of the previous record (the coordinates of the observation for
the first record) with the displacement and wind bearing of that day,
while its `distance` field is the haversine distance from the original
coordinates of the observation to the new position of the record, not a
cumulative step sum. -/
theorem predictDrift_chaining :
    ∀ (env : AmbientEnv) (obs : JellyfishObservation) (wd : List WindData)
      (days k : ℕ) (p : DriftPrediction),
      (predictDrift env obs wd days)[k]? = some p →
        p.distance = calculateDistance obs.latitude obs.longitude p.latitude p.longitude
        ∧ (k = 0 → (p.latitude, p.longitude) =
            applyDrift obs.latitude obs.longitude
              (calculateDailyDrift p.windSpeed p.day (env.rng p.day)) p.windDirection)
        ∧ (∀ q, (predictDrift env obs wd days)[k - 1]? = some q → k ≠ 0 →
            (p.latitude, p.longitude) =
              applyDrift q.latitude q.longitude
                (calculateDailyDrift p.windSpeed p.day (env.rng p.day)) p.windDirection) := by
  intro env obs wd days k p h
  exact runDays_chain (groupWindDataByDay env.tomorrowStart wd) env.rng
    (obs.latitude, obs.longitude) (List.range' 1 days)
    (obs.latitude, obs.longitude) k p h

theorem predictDrift_chaining_w :
    ∃ p, (predictDrift env0 obs0 wd1 1)[0]? = some p
      ∧ p.distance = calculateDistance obs0.latitude obs0.longitude p.latitude p.longitude
      ∧ (p.latitude, p.longitude) =
          applyDrift obs0.latitude obs0.longitude
            (calculateDailyDrift p.windSpeed p.day (env0.rng p.day)) p.windDirection := by
  obtain ⟨p, hp⟩ : ∃ p, (predictDrift env0 obs0 wd1 1)[0]? = some p := ⟨_, rfl⟩
  have h := predictDrift_chaining env0 obs0 wd1 1 0 p hp
  exact ⟨p, hp, h.1, h.2.1 rfl⟩

lemma calculateAverageWind_speed_eq (wd : List WindData) (h : wd ≠ []) :
    (calculateAverageWind wd).speed = Real.sqrt (xbar wd ^ 2 + ybar wd ^ 2) := by
  have hlen : ¬ wd.length = 0 := by simpa using h
  simp only [calculateAverageWind, if_neg hlen, xbar, ybar]
  congr 1
  ring

lemma calculateAverageWind_direction_eq (wd : List WindData) (h : wd ≠ []) :
    (calculateAverageWind wd).direction =
      normalizeDeg (atan2 (xbar wd) (ybar wd) * (180 / Real.pi)) := by
  have hlen : ¬ wd.length = 0 := by simpa using h
  simp only [calculateAverageWind, if_neg hlen, xbar, ybar, normalizeDeg]

lemma xbar_pair (s θ : ℝ) (t t' : ℤ) :
    xbar [⟨s, θ, t⟩, ⟨s, θ, t'⟩] = s * Real.sin (θ * Real.pi / 180) := by
  simp [xbar]

lemma ybar_pair (s θ : ℝ) (t t' : ℤ) :
    ybar [⟨s, θ, t⟩, ⟨s, θ, t'⟩] = s * Real.cos (θ * Real.pi / 180) := by
  simp [ybar]

lemma atan2_pos_mul (s c si : ℝ) (hs : 0 < s) :
    atan2 (s * si) (s * c) = atan2 si c := by
  rw [atan2, atan2]
  have hmk : (⟨s * c, s * si⟩ : ℂ) = (s : ℂ) * ⟨c, si⟩ := by
    apply Complex.ext <;> simp
  rw [hmk, Complex.arg_real_mul _ hs]

lemma atan2_cos_sin (θr : ℝ) (hmem : θr ∈ Set.Ioc (-Real.pi) Real.pi) :
    atan2 (Real.sin θr) (Real.cos θr) = θr := by
  rw [atan2]
  have hmk : (⟨Real.cos θr, Real.sin θr⟩ : ℂ) =
      (1 : ℝ) * (Complex.cos θr + Complex.sin θr * Complex.I) := by
    rw [← Complex.ofReal_cos, ← Complex.ofReal_sin, ← Complex.mk_eq_add_mul_I]
    apply Complex.ext <;> simp
  rw [hmk]
  exact Complex.arg_mul_cos_add_sin_mul_I one_pos hmem

lemma calculateAverageWind_pair (s θ : ℝ) (t t' : ℤ) (hs : 0 < s) (h0 : 0 ≤ θ)
    (h360 : θ < 360) :
    calculateAverageWind [⟨s, θ, t⟩, ⟨s, θ, t'⟩] = ⟨s, θ⟩ := by
  have hne : ([⟨s, θ, t⟩, ⟨s, θ, t'⟩] : List WindData) ≠ [] := by simp
  have hpi := Real.pi_pos
  have hspeed : (calculateAverageWind [⟨s, θ, t⟩, ⟨s, θ, t'⟩]).speed = s := by
    rw [calculateAverageWind_speed_eq _ hne, xbar_pair, ybar_pair]
    have hsq : (s * Real.sin (θ * Real.pi / 180)) ^ 2 +
        (s * Real.cos (θ * Real.pi / 180)) ^ 2 = s ^ 2 := by
      have h1 := Real.sin_sq_add_cos_sq (θ * Real.pi / 180)
      nlinarith
    rw [hsq, Real.sqrt_sq hs.le]
  have hdir : (calculateAverageWind [⟨s, θ, t⟩, ⟨s, θ, t'⟩]).direction = θ := by
    rw [calculateAverageWind_direction_eq _ hne, xbar_pair, ybar_pair,
      atan2_pos_mul _ _ _ hs]
    rcases le_or_lt θ 180 with hc | hc
    · have hmem : θ * Real.pi / 180 ∈ Set.Ioc (-Real.pi) Real.pi := by
        constructor
        · nlinarith
        · nlinarith
      rw [atan2_cos_sin _ hmem]
      have hdeg : θ * Real.pi / 180 * (180 / Real.pi) = θ := by
        field_simp
      rw [hdeg, normalizeDeg, if_neg (not_lt.mpr h0)]
    · have hcos : Real.cos (θ * Real.pi / 180) =
          Real.cos (θ * Real.pi / 180 - 2 * Real.pi) :=
        (Real.cos_sub_two_pi _).symm
      have hsin : Real.sin (θ * Real.pi / 180) =
          Real.sin (θ * Real.pi / 180 - 2 * Real.pi) :=
        (Real.sin_sub_two_pi _).symm
      rw [hcos, hsin]
      have hmem : θ * Real.pi / 180 - 2 * Real.pi ∈ Set.Ioc (-Real.pi) Real.pi := by
        constructor
        · nlinarith
        · nlinarith
      rw [atan2_cos_sin _ hmem]
      have hdeg : (θ * Real.pi / 180 - 2 * Real.pi) * (180 / Real.pi) = θ - 360 := by
        field_simp
        ring
      rw [hdeg, normalizeDeg, if_pos (by linarith)]
      ring
  cases hw : calculateAverageWind [⟨s, θ, t⟩, ⟨s, θ, t'⟩] with
  | mk sp dir =>
    rw [hw] at hspeed hdir
    simp only at hspeed hdir
    rw [hspeed, hdir]

/-- C6 counterexample: the two identical zero-speed samples with direction
90 average to direction 0, not to the shared sample direction, so averaging
two identical samples does not always return the sample speed and
direction. -/
theorem calculateAverageWind_identical_counterexample :
    calculateAverageWind [⟨0, 90, 0⟩, ⟨0, 90, 0⟩] ≠ (⟨0, 90⟩ : AveragedWind) := by
  have h : calculateAverageWind [⟨0, 90, 0⟩, ⟨0, 90, 0⟩] = ⟨0, 0⟩ := by
    simp [calculateAverageWind, atan2_zero_zero]
  rw [h]
  intro hcontra
  have := congrArg AveragedWind.direction hcontra
  norm_num at this

/-- C6 as amended: `calculateAverageWind` computes the circular vector
average — speed `sqrt (x̄² + ȳ²)` and direction `atan2 x̄ ȳ` in degrees
normalized into `[0,360)` by adding 360 if negative — the empty bucket
yields speed 0 and direction 0 rather than failing, and averaging two
identical samples of positive speed (direction in `[0,360)`) returns that
speed and direction of that sample (a zero-speed pair instead yields
direction 0). -/
theorem calculateAverageWind_circular_spec :
    calculateAverageWind [] = ⟨0, 0⟩
    ∧ (∀ wd : List WindData, wd ≠ [] →
        (calculateAverageWind wd).speed = Real.sqrt (xbar wd ^ 2 + ybar wd ^ 2)
        ∧ (calculateAverageWind wd).direction =
            normalizeDeg (atan2 (xbar wd) (ybar wd) * (180 / Real.pi)))
    ∧ (∀ w : WindData, 0 < w.speed → 0 ≤ w.direction → w.direction < 360 →
        calculateAverageWind [w, w] = ⟨w.speed, w.direction⟩) := by
  refine ⟨rfl, ?_, ?_⟩
  · intro wd h
    exact ⟨calculateAverageWind_speed_eq wd h, calculateAverageWind_direction_eq wd h⟩
  · intro w hs h0 h360
    obtain ⟨s, θ, t⟩ := w
    exact calculateAverageWind_pair s θ t t hs h0 h360

theorem calculateAverageWind_circular_spec_w :
    calculateAverageWind [⟨10, 90, 0⟩, ⟨10, 90, 0⟩] = (⟨10, 90⟩ : AveragedWind)
      ∧ (calculateAverageWind wd1).speed =
          Real.sqrt (xbar wd1 ^ 2 + ybar wd1 ^ 2) := by
  constructor
  · exact calculateAverageWind_circular_spec.2.2 ⟨10, 90, 0⟩ (by norm_num)
      (by norm_num) (by norm_num)
  · exact (calculateAverageWind_circular_spec.2.1 wd1 (by simp [wd1])).1
